import Mathlib

/-!
Shallow embedding of `src/Adafruit_INA219.cpp` (INA219 current-sensor driver).

Machine integers are embedded as `Nat` with explicit reduction modulo `2^16`
where the C code truncates to `uint16_t` / `int16_t`; the C `float`/`double`
values are embedded as exact rationals `ℚ` (every concrete computation settled
below stays far from any float rounding boundary, as noted at each claim).
I2C traffic is embedded as a register file together with an ordered trace of
register writes and reads.
-/

/-- One I2C register operation, as issued by `wireWriteRegister` /
`wireReadRegister` in the source. -/
inductive WireOp where
  | write (reg : Nat) (value : Nat)
  | read (reg : Nat)
  deriving DecidableEq, Repr

/-- The I2C side of the world: the device's 16-bit registers (addressed by
register number) and the ordered trace of operations issued so far. -/
structure Wire where
  regs : Nat → Nat
  trace : List WireOp

/-- Functional update of the register file. -/
def updReg (regs : Nat → Nat) (r v : Nat) : Nat → Nat :=
  fun x => if x = r then v else regs x

/-- Embeds `Adafruit_INA219::wireWriteRegister`: transmits the register
address, then the value high byte first — on the device this stores the
16-bit value at the register; the op is appended to the trace. -/
def wireWriteRegister (w : Wire) (reg value : Nat) : Wire :=
  { regs := updReg w.regs reg (value % 65536), trace := w.trace ++ [WireOp.write reg value] }

/-- Embeds `Adafruit_INA219::wireReadRegister`: reads the register and
reassembles two bytes high-first, hence a value `< 2^16`. -/
def wireReadRegister (w : Wire) (reg : Nat) : Nat × Wire :=
  (w.regs reg % 65536, { w with trace := w.trace ++ [WireOp.read reg] })

/-- The driver object of the source: class `Adafruit_INA219`'s data members.
`ina219_calValue` is a `uint16_t`, the two LSB scale factors are C floats. -/
structure Adafruit_INA219 where
  ina219_i2caddr : Nat
  ina219_currentLsb_mA : ℚ
  ina219_powerLsb_mW : ℚ
  ina219_calValue : Nat
  deriving DecidableEq, Repr

/-- Truncation toward zero of a rational, as the C float-to-integer
conversion truncates. -/
def truncZ (q : ℚ) : ℤ :=
  if q < 0 then -(⌊-q⌋) else ⌊q⌋

/-- Embeds a C cast of a float to `uint16_t`: truncate toward zero, then
reduce modulo `2^16`.  (For values outside `[0, 65536)` the C conversion is
undefined behaviour; this model picks wraparound of the truncated integer.
No claim settled below depends on the value produced on that range.) -/
def toU16cast (q : ℚ) : Nat :=
  ((truncZ q) % 65536).toNat

/-- Embeds a C cast of an unsigned 16-bit value to `int16_t` (two's
complement reinterpretation). -/
def toI16 (n : Nat) : Int :=
  if n % 65536 < 32768 then (n % 65536 : Int) else (n % 65536 : Int) - 65536

/-! Register addresses, from the register map (spec §6) and the source's
`INA219_REG_*` uses. -/

def INA219_REG_CONFIG : Nat := 0x00
def INA219_REG_SHUNTVOLTAGE : Nat := 0x01
def INA219_REG_BUSVOLTAGE : Nat := 0x02
def INA219_REG_POWER : Nat := 0x03
def INA219_REG_CURRENT : Nat := 0x04
def INA219_REG_CALIBRATION : Nat := 0x05

/-! Modelled from the spec: the header `Adafruit_INA219.h` that defines the
`INA219_CONFIG_*` field constants is not among the given sources.  The
values follow the spec's CONFIG-register description (bus range, gain,
shunt/bus ADC resolution fields, operating mode) laid out per the device's
standard CONFIG format: bus-range bit 13, gain bits 11–12, bus-ADC (BADC)
bits 7–10, shunt-ADC (SADC) bits 3–6, mode bits 0–2. -/

def INA219_CONFIG_BVOLTAGERANGE_16V : Nat := 0x0000
def INA219_CONFIG_BVOLTAGERANGE_32V : Nat := 0x2000
def INA219_CONFIG_GAIN_1_40MV : Nat := 0x0000
def INA219_CONFIG_GAIN_2_80MV : Nat := 0x0800
def INA219_CONFIG_GAIN_4_160MV : Nat := 0x1000
def INA219_CONFIG_GAIN_8_320MV : Nat := 0x1800
def INA219_CONFIG_BADCRES_MASK : Nat := 0x0780
def INA219_CONFIG_BADCRES_12BIT : Nat := 0x0180
def INA219_CONFIG_BADCRES_12BIT_128S_69MS : Nat := 0x0780
def INA219_CONFIG_SADCRES_MASK : Nat := 0x0078
def INA219_CONFIG_SADCRES_12BIT_1S_532US : Nat := 0x0018
def INA219_CONFIG_SADCRES_12BIT_128S_69MS : Nat := 0x0078
def INA219_CONFIG_MODE_SANDBVOLT_CONTINUOUS : Nat := 0x0007

/-- Embeds the constructor `Adafruit_INA219::Adafruit_INA219(uint8_t addr)`.
The source assigns `ina219_i2caddr`, `ina219_currentLsb_mA` and
`ina219_powerLsb_mW` only; `ina219_calValue` is not assigned, so it keeps
whatever the object's storage held before the constructor ran (indeterminate
for automatic storage, zero for zero-initialized static storage).  `prior`
is that pre-constructor storage content. -/
def Adafruit_INA219.ctor (prior : Adafruit_INA219) (addr : Nat) : Adafruit_INA219 :=
  { prior with
    ina219_i2caddr := addr
    ina219_currentLsb_mA := 0
    ina219_powerLsb_mW := 0 }

/-- Embeds `Adafruit_INA219::setCalibration_32V_2A`: fixed constants, then
writes CALIBRATION and CONFIG. -/
def Adafruit_INA219.setCalibration_32V_2A (s : Adafruit_INA219) (w : Wire) :
    Adafruit_INA219 × Wire :=
  let s1 := { s with ina219_currentLsb_mA := 1/10 }
  let s2 := { s1 with ina219_calValue := 4096 }
  let s3 := { s2 with ina219_powerLsb_mW := 2 }
  let w1 := wireWriteRegister w INA219_REG_CALIBRATION s3.ina219_calValue
  let config := INA219_CONFIG_BVOLTAGERANGE_32V |||
                INA219_CONFIG_GAIN_8_320MV |||
                INA219_CONFIG_BADCRES_12BIT |||
                INA219_CONFIG_SADCRES_12BIT_1S_532US |||
                INA219_CONFIG_MODE_SANDBVOLT_CONTINUOUS
  let w2 := wireWriteRegister w1 INA219_REG_CONFIG config
  (s3, w2)

/-- Embeds `Adafruit_INA219::setCalibration_32V_1A`. -/
def Adafruit_INA219.setCalibration_32V_1A (s : Adafruit_INA219) (w : Wire) :
    Adafruit_INA219 × Wire :=
  let s1 := { s with ina219_currentLsb_mA := 4/100 }
  let s2 := { s1 with ina219_calValue := 10240 }
  let s3 := { s2 with ina219_powerLsb_mW := 8/10 }
  let w1 := wireWriteRegister w INA219_REG_CALIBRATION s3.ina219_calValue
  let config := INA219_CONFIG_BVOLTAGERANGE_32V |||
                INA219_CONFIG_GAIN_8_320MV |||
                INA219_CONFIG_BADCRES_12BIT |||
                INA219_CONFIG_SADCRES_12BIT_1S_532US |||
                INA219_CONFIG_MODE_SANDBVOLT_CONTINUOUS
  let w2 := wireWriteRegister w1 INA219_REG_CONFIG config
  (s3, w2)

/-- Embeds `Adafruit_INA219::setCalibration_16V_400mA`. -/
def Adafruit_INA219.setCalibration_16V_400mA (s : Adafruit_INA219) (w : Wire) :
    Adafruit_INA219 × Wire :=
  let s1 := { s with ina219_currentLsb_mA := 5/100 }
  let s2 := { s1 with ina219_calValue := 8192 }
  let s3 := { s2 with ina219_powerLsb_mW := 1 }
  let w1 := wireWriteRegister w INA219_REG_CALIBRATION s3.ina219_calValue
  let config := INA219_CONFIG_BVOLTAGERANGE_16V |||
                INA219_CONFIG_GAIN_1_40MV |||
                INA219_CONFIG_BADCRES_12BIT |||
                INA219_CONFIG_SADCRES_12BIT_1S_532US |||
                INA219_CONFIG_MODE_SANDBVOLT_CONTINUOUS
  let w2 := wireWriteRegister w1 INA219_REG_CONFIG config
  (s3, w2)

/-- Embeds the `while( current_lsb > 0.0 )` rounding loop of
`setCalibration_Def` (steps 3–4 in the source): while the current value is
positive, test whether its `uint16_t` truncation is nonzero
(`(uint16_t)current_lsb / 1` in the source); if so set
`current_lsb = (uint16_t)current_lsb + 1` and divide by `pow(10,digits)`
and break, else increment `digits` and multiply by `10`.  The C loop has no
iteration bound of its own; `fuel` bounds the recursion here, and `none`
means the bound was hit. -/
def niceLoop : Nat → Nat → ℚ → Option ℚ
  | 0, _, _ => none
  | fuel + 1, digits, current_lsb =>
    if 0 < current_lsb then
      if toU16cast current_lsb ≠ 0 then
        some (((toU16cast current_lsb : ℚ) + 1) / 10 ^ digits)
      else
        niceLoop fuel (digits + 1) (current_lsb * 10)
    else
      some current_lsb

/-- Embeds which gain constant the `if`/`else if` chain of
`setCalibration_Def` selects from `v_shunt_max` (source lines 474–481). -/
def gainFor (v_shunt_max : ℚ) : Nat :=
  if v_shunt_max ≤ 4/100 then INA219_CONFIG_GAIN_1_40MV
  else if v_shunt_max ≤ 8/100 then INA219_CONFIG_GAIN_2_80MV
  else if v_shunt_max ≤ 160/1000 then INA219_CONFIG_GAIN_4_160MV
  else INA219_CONFIG_GAIN_8_320MV

/-- Embeds `Adafruit_INA219::setCalibration_Def(r_shunt, v_shunt_max,
v_bus_max, i_max_expected)`.  `0.04096` is exactly `4096/100000 : ℚ`.
The debug-only computations (`i_max_possible`, `max_lsb`, the
`INA219_DEBUG` block) affect no state or register write; the two that the
default build still computes are kept as unused bindings. -/
def Adafruit_INA219.setCalibration_Def (fuel : Nat) (s : Adafruit_INA219) (w : Wire)
    (r_shunt v_shunt_max v_bus_max i_max_expected : ℚ) :
    Option (Adafruit_INA219 × Wire) :=
  let _i_max_possible := v_shunt_max / r_shunt
  let min_lsb := i_max_expected / 32767
  let _max_lsb := i_max_expected / 4096
  match niceLoop fuel 0 min_lsb with
  | none => none
  | some current_lsb =>
    let s1 := { s with ina219_currentLsb_mA := current_lsb * 1000 }
    let swap := (4096/100000 : ℚ) / (current_lsb * r_shunt)
    let cal := toU16cast swap
    let s2 := { s1 with ina219_calValue := cal }
    let power_lsb := current_lsb * 20
    let s3 := { s2 with ina219_powerLsb_mW := power_lsb * 1000 }
    let w1 := wireWriteRegister w INA219_REG_CALIBRATION s3.ina219_calValue
    let bvoltage := if 16 < v_bus_max then INA219_CONFIG_BVOLTAGERANGE_32V
                    else INA219_CONFIG_BVOLTAGERANGE_16V
    let gain := gainFor v_shunt_max
    let config := bvoltage ||| gain |||
                  INA219_CONFIG_BADCRES_12BIT |||
                  INA219_CONFIG_SADCRES_12BIT_1S_532US |||
                  INA219_CONFIG_MODE_SANDBVOLT_CONTINUOUS
    let w2 := wireWriteRegister w1 INA219_REG_CONFIG config
    some (s3, w2)

/-- Embeds `Adafruit_INA219::getBusVoltage_raw`: read BUSVOLTAGE, shift
right by 3 (drop CNVR and OVF), multiply by 4, cast to `int16_t`. -/
def Adafruit_INA219.getBusVoltage_raw (w : Wire) : Int × Wire :=
  let r := wireReadRegister w INA219_REG_BUSVOLTAGE
  (toI16 ((r.1 / 8) * 4), r.2)

/-- Embeds `Adafruit_INA219::getShuntVoltage_raw`. -/
def Adafruit_INA219.getShuntVoltage_raw (w : Wire) : Int × Wire :=
  let r := wireReadRegister w INA219_REG_SHUNTVOLTAGE
  (toI16 r.1, r.2)

/-- Embeds `Adafruit_INA219::getCurrent_raw`: always re-write the cached
calibration value to CALIBRATION, then read CURRENT, signed. -/
def Adafruit_INA219.getCurrent_raw (s : Adafruit_INA219) (w : Wire) : Int × Wire :=
  let w1 := wireWriteRegister w INA219_REG_CALIBRATION s.ina219_calValue
  let r := wireReadRegister w1 INA219_REG_CURRENT
  (toI16 r.1, r.2)

/-- Embeds `Adafruit_INA219::getPower_raw`: read POWER, signed (no
calibration re-write of its own). -/
def Adafruit_INA219.getPower_raw (w : Wire) : Int × Wire :=
  let r := wireReadRegister w INA219_REG_POWER
  (toI16 r.1, r.2)

/-- Embeds `Adafruit_INA219::getCurrent_mA`: raw current times the cached
current LSB in mA. -/
def Adafruit_INA219.getCurrent_mA (s : Adafruit_INA219) (w : Wire) : ℚ × Wire :=
  let r := Adafruit_INA219.getCurrent_raw s w
  ((r.1 : ℚ) * s.ina219_currentLsb_mA, r.2)

/-- Embeds `Adafruit_INA219::getPower_mW`: raw power times the cached power
LSB in mW. -/
def Adafruit_INA219.getPower_mW (s : Adafruit_INA219) (w : Wire) : ℚ × Wire :=
  let r := Adafruit_INA219.getPower_raw w
  ((r.1 : ℚ) * s.ina219_powerLsb_mW, r.2)

/-- Complement within 16 bits: embeds the effect of C `value & ~MASK` once
the result is truncated back to `uint16_t`. -/
def compl16 (m : Nat) : Nat := 65535 ^^^ m

/-- Embeds `Adafruit_INA219::setAmpInstant`: read CONFIG, clear the SADC
field, set 12-bit/1-sample, write back. -/
def Adafruit_INA219.setAmpInstant (w : Wire) : Wire :=
  let r := wireReadRegister w INA219_REG_CONFIG
  let value2 := (r.1 &&& compl16 INA219_CONFIG_SADCRES_MASK) |||
                INA219_CONFIG_SADCRES_12BIT_1S_532US
  wireWriteRegister r.2 INA219_REG_CONFIG value2

/-- Embeds `Adafruit_INA219::setAmpAverage`: read CONFIG, clear the SADC
field, set 12-bit/128-sample, write back (the 69 ms settling delay has no
register effect). -/
def Adafruit_INA219.setAmpAverage (w : Wire) : Wire :=
  let r := wireReadRegister w INA219_REG_CONFIG
  let value2 := (r.1 &&& compl16 INA219_CONFIG_SADCRES_MASK) |||
                INA219_CONFIG_SADCRES_12BIT_128S_69MS
  wireWriteRegister r.2 INA219_REG_CONFIG value2

/-- Embeds `Adafruit_INA219::setVoltInstant`: read CONFIG, clear the BADC
field, set 12-bit/1-sample, write back. -/
def Adafruit_INA219.setVoltInstant (w : Wire) : Wire :=
  let r := wireReadRegister w INA219_REG_CONFIG
  let value2 := (r.1 &&& compl16 INA219_CONFIG_BADCRES_MASK) |||
                INA219_CONFIG_BADCRES_12BIT
  wireWriteRegister r.2 INA219_REG_CONFIG value2

/-- Embeds `Adafruit_INA219::setVoltAverage`: read CONFIG, clear the BADC
field, set 12-bit/128-sample, write back. -/
def Adafruit_INA219.setVoltAverage (w : Wire) : Wire :=
  let r := wireReadRegister w INA219_REG_CONFIG
  let value2 := (r.1 &&& compl16 INA219_CONFIG_BADCRES_MASK) |||
                INA219_CONFIG_BADCRES_12BIT_128S_69MS
  wireWriteRegister r.2 INA219_REG_CONFIG value2

/-- An all-zero pre-constructor storage content and an idle wire, used by
concrete evaluations below. -/
def zeroState : Adafruit_INA219 := ⟨0, 0, 0, 0⟩

/-- A wire whose device registers all read zero and whose trace is empty. -/
def idleWire : Wire := ⟨fun _ => 0, []⟩

/-- Wire used to exercise the 32V/2A conversion factors: the device's
CURRENT register reads 100 and its POWER register reads 50. -/
def testWire : Wire :=
  ⟨fun r => if r = INA219_REG_CURRENT then 100
            else if r = INA219_REG_POWER then 50 else 0, []⟩

/-! Helper lemmas on 16-bit masking, used by the CONFIG read-modify-write
theorems. -/

/-- Bits of the all-ones 16-bit word. -/
theorem testBit_65535 (i : Nat) : Nat.testBit 65535 i = decide (i < 16) := by
  have h : (65535 : Nat) = 2 ^ 16 - 1 := by norm_num
  rw [h, Nat.testBit_two_pow_sub_one]

/-- A bit clear in `m` is clear in any `b` with `b ||| m = m`. -/
theorem testBit_subset (b m i : Nat) (hsub : b ||| m = m)
    (hm : Nat.testBit m i = false) : Nat.testBit b i = false := by
  have h := congrArg (fun x => Nat.testBit x i) hsub
  simp only [Nat.testBit_or, hm, Bool.or_false] at h
  exact h

/-- Clearing field `m` and setting `b` leaves a bit outside both
unchanged, for 16-bit values. -/
theorem testBit_maskSet (v m b i : Nat) (hm : Nat.testBit m i = false)
    (hb : Nat.testBit b i = false) (hv : v < 65536) :
    Nat.testBit ((v &&& compl16 m) ||| b) i = Nat.testBit v i := by
  rw [Nat.testBit_or, Nat.testBit_and, hb, Bool.or_false, compl16,
    Nat.testBit_xor, hm, Bool.xor_false]
  rcases Nat.lt_or_ge i 16 with hi | hi
  · rw [testBit_65535]
    simp [hi]
  · have hle : (65536 : Nat) ≤ 2 ^ i := by
      have h16 : (2 : Nat) ^ 16 ≤ 2 ^ i := Nat.pow_le_pow_right (by norm_num) hi
      simpa using h16
    have h1 : Nat.testBit v i = false :=
      Nat.testBit_lt_two_pow (lt_of_lt_of_le hv hle)
    have h2 : Nat.testBit 65535 i = false := by
      rw [testBit_65535]; simp [Nat.not_lt.mpr hi]
    rw [h1, h2]; simp

/-- Reduction modulo `65536` keeps exactly the low 16 bits. -/
theorem testBit_mod_65536 (x i : Nat) :
    Nat.testBit (x % 65536) i = (decide (i < 16) && Nat.testBit x i) := by
  have h : x % 65536 = x % 2 ^ 16 := by norm_num
  rw [h, Nat.testBit_mod_two_pow]

/-- The full read-modify-write step of the sampling toggles (read a 16-bit
CONFIG, clear field `m`, set `b ⊆ m`, truncate back to 16 bits) preserves
every bit outside `m`. -/
theorem maskSet_step_preserves (x m b i : Nat) (hsub : b ||| m = m)
    (hm : Nat.testBit m i = false) :
    Nat.testBit ((((x % 65536) &&& compl16 m) ||| b) % 65536) i =
      Nat.testBit (x % 65536) i := by
  have hb : Nat.testBit b i = false := testBit_subset b m i hsub hm
  have hx : x % 65536 < 65536 := Nat.mod_lt _ (by norm_num)
  rw [testBit_mod_65536]
  rcases Nat.lt_or_ge i 16 with hi | hi
  · rw [testBit_maskSet (x % 65536) m b i hm hb hx]
    simp [hi]
  · rw [testBit_mod_65536]
    simp [Nat.not_lt.mpr hi]

/-- Claim C3, counterexample: constructing a handle over storage whose
`ina219_calValue` cell previously held `4096` leaves `ina219_calValue` at
`4096`, not `0` — the constructor in the source never assigns that member,
so "all three operating-point fields are zero after construction" fails. -/
theorem ctor_calValue_cex :
    (Adafruit_INA219.ctor ⟨0, 0, 0, 4096⟩ 64).ina219_calValue ≠ 0 := by
  decide

/-- Claim C3, amended: immediately after construction with device address
`addr`, `ina219_currentLsb_mA` and `ina219_powerLsb_mW` are zero and the
address is `addr`, but `ina219_calValue` merely retains the storage's prior
content (so it is zero only when that storage was zero-initialized). -/
theorem ctor_fields (prior : Adafruit_INA219) (addr : Nat) :
    (Adafruit_INA219.ctor prior addr).ina219_i2caddr = addr ∧
    (Adafruit_INA219.ctor prior addr).ina219_currentLsb_mA = 0 ∧
    (Adafruit_INA219.ctor prior addr).ina219_powerLsb_mW = 0 ∧
    (Adafruit_INA219.ctor prior addr).ina219_calValue = prior.ina219_calValue :=
  ⟨rfl, rfl, rfl, rfl⟩

/-- Claim C4: every call of `getCurrent_raw`, in every calibration state
`s` and from every wire history `w`, appends exactly a write of the cached
calibration value to the CALIBRATION register immediately followed by the
read of the CURRENT register — no other register operation in between. -/
theorem getCurrent_raw_trace (s : Adafruit_INA219) (w : Wire) :
    (Adafruit_INA219.getCurrent_raw s w).2.trace =
      w.trace ++ [WireOp.write INA219_REG_CALIBRATION s.ina219_calValue,
                  WireOp.read INA219_REG_CURRENT] := by
  simp [Adafruit_INA219.getCurrent_raw, wireWriteRegister, wireReadRegister]

/-- Claim C5: each preset calibration routine caches exactly its literal
constants (32V/2A: 0.1 mA, 2 mW, 4096; 32V/1A: 0.04 mA, 0.8 mW, 10240;
16V/400mA: 0.05 mA, 1 mW, 8192) and writes that calibration value to the
CALIBRATION register (followed by the CONFIG write). -/
theorem presets_set_constants (s : Adafruit_INA219) (w : Wire) :
    ((s.setCalibration_32V_2A w).1.ina219_currentLsb_mA = 1/10 ∧
     (s.setCalibration_32V_2A w).1.ina219_powerLsb_mW = 2 ∧
     (s.setCalibration_32V_2A w).1.ina219_calValue = 4096 ∧
     ∃ c, (s.setCalibration_32V_2A w).2.trace =
        w.trace ++ [WireOp.write INA219_REG_CALIBRATION 4096,
                    WireOp.write INA219_REG_CONFIG c]) ∧
    ((s.setCalibration_32V_1A w).1.ina219_currentLsb_mA = 4/100 ∧
     (s.setCalibration_32V_1A w).1.ina219_powerLsb_mW = 8/10 ∧
     (s.setCalibration_32V_1A w).1.ina219_calValue = 10240 ∧
     ∃ c, (s.setCalibration_32V_1A w).2.trace =
        w.trace ++ [WireOp.write INA219_REG_CALIBRATION 10240,
                    WireOp.write INA219_REG_CONFIG c]) ∧
    ((s.setCalibration_16V_400mA w).1.ina219_currentLsb_mA = 5/100 ∧
     (s.setCalibration_16V_400mA w).1.ina219_powerLsb_mW = 1 ∧
     (s.setCalibration_16V_400mA w).1.ina219_calValue = 8192 ∧
     ∃ c, (s.setCalibration_16V_400mA w).2.trace =
        w.trace ++ [WireOp.write INA219_REG_CALIBRATION 8192,
                    WireOp.write INA219_REG_CONFIG c]) := by
  refine ⟨⟨rfl, rfl, rfl,
      ⟨INA219_CONFIG_BVOLTAGERANGE_32V ||| INA219_CONFIG_GAIN_8_320MV |||
        INA219_CONFIG_BADCRES_12BIT ||| INA219_CONFIG_SADCRES_12BIT_1S_532US |||
        INA219_CONFIG_MODE_SANDBVOLT_CONTINUOUS, ?_⟩⟩,
    ⟨rfl, rfl, rfl,
      ⟨INA219_CONFIG_BVOLTAGERANGE_32V ||| INA219_CONFIG_GAIN_8_320MV |||
        INA219_CONFIG_BADCRES_12BIT ||| INA219_CONFIG_SADCRES_12BIT_1S_532US |||
        INA219_CONFIG_MODE_SANDBVOLT_CONTINUOUS, ?_⟩⟩,
    ⟨rfl, rfl, rfl,
      ⟨INA219_CONFIG_BVOLTAGERANGE_16V ||| INA219_CONFIG_GAIN_1_40MV |||
        INA219_CONFIG_BADCRES_12BIT ||| INA219_CONFIG_SADCRES_12BIT_1S_532US |||
        INA219_CONFIG_MODE_SANDBVOLT_CONTINUOUS, ?_⟩⟩⟩ <;>
    simp [Adafruit_INA219.setCalibration_32V_2A, Adafruit_INA219.setCalibration_32V_1A,
      Adafruit_INA219.setCalibration_16V_400mA, wireWriteRegister]

/-- Claim C9: when the BUSVOLTAGE register holds `raw * 8` (the voltage
units shifted left by the 3 status bits) and that value is representable
in 16 bits, `getBusVoltage_raw` returns `raw * 4`, within the positive
signed-16-bit range. -/
theorem getBusVoltage_raw_decodes (raw : Nat) (w : Wire)
    (hrep : raw * 8 < 65536) (hreg : w.regs INA219_REG_BUSVOLTAGE = raw * 8) :
    (Adafruit_INA219.getBusVoltage_raw w).1 = (raw * 4 : Int) ∧
    (raw * 4 : Int) ≤ 32764 := by
  simp only [Adafruit_INA219.getBusVoltage_raw, wireReadRegister, hreg, toI16]
  constructor
  · split_ifs <;> omega
  · omega

/-- Claim C10: for every possible BUSVOLTAGE register content (the read
yields a 16-bit value, bit 15 included), the signed result of
`getBusVoltage_raw` is non-negative, a multiple of 4, and at most 32764 —
the shift-then-multiply never reaches the negative half of `int16_t`. -/
theorem getBusVoltage_raw_bounds (w : Wire) :
    0 ≤ (Adafruit_INA219.getBusVoltage_raw w).1 ∧
    (Adafruit_INA219.getBusVoltage_raw w).1 % 4 = 0 ∧
    (Adafruit_INA219.getBusVoltage_raw w).1 ≤ 32764 := by
  simp only [Adafruit_INA219.getBusVoltage_raw, wireReadRegister, toI16]
  have h : w.regs INA219_REG_BUSVOLTAGE % 65536 < 65536 := Nat.mod_lt _ (by norm_num)
  split_ifs <;> omega

/-- Evaluation rule for `toU16cast` on a non-negative rational with a
known floor below `2^16`. -/
theorem toU16cast_of_floor (q : ℚ) (n : ℕ) (h0 : 0 ≤ q) (hf : ⌊q⌋ = (n : ℤ))
    (hn : n < 65536) : toU16cast q = n := by
  unfold toU16cast truncZ
  rw [if_neg (by linarith), hf]
  omega

/-- One continuing iteration of the rounding loop: positive value whose
integer part truncates to zero. -/
theorem niceLoop_cont (f d : Nat) (c : ℚ) (hc : 0 < c) (hz : toU16cast c = 0) :
    niceLoop (f + 1) d c = niceLoop f (d + 1) (c * 10) := by
  conv_lhs => rw [niceLoop]
  rw [if_pos hc, if_neg (by simp [hz])]

/-- The breaking iteration of the rounding loop: nonzero integer part. -/
theorem niceLoop_done (f d : Nat) (c : ℚ) (hc : 0 < c) (hz : toU16cast c ≠ 0) :
    niceLoop (f + 1) d c = some (((toU16cast c : ℚ) + 1) / 10 ^ d) := by
  conv_lhs => rw [niceLoop]
  rw [if_pos hc, if_pos hz]

/-- The loop guard makes the loop exit before its first iteration on a
non-positive value. -/
theorem niceLoop_nonpos (f d : Nat) (c : ℚ) (hc : ¬ 0 < c) :
    niceLoop (f + 1) d c = some c := by
  conv_lhs => rw [niceLoop]
  rw [if_neg hc]

/-- The rounding loop on `2/32767` A (the generic 32V/2A input): five
scale-by-ten steps reach `≈6.1037`, which truncates to `6`, rounds up to
`7` and scales back to `7/10^5` A. -/
theorem niceLoop_32V2A : niceLoop 10 0 ((2 : ℚ) / 32767) = some (7/100000) := by
  have z0 : toU16cast ((2 : ℚ) / 32767) = 0 :=
    toU16cast_of_floor _ 0 (by norm_num) (by norm_num) (by norm_num)
  have z1 : toU16cast ((2 : ℚ) / 32767 * 10) = 0 :=
    toU16cast_of_floor _ 0 (by norm_num) (by norm_num) (by norm_num)
  have z2 : toU16cast ((2 : ℚ) / 32767 * 10 * 10) = 0 :=
    toU16cast_of_floor _ 0 (by norm_num) (by norm_num) (by norm_num)
  have z3 : toU16cast ((2 : ℚ) / 32767 * 10 * 10 * 10) = 0 :=
    toU16cast_of_floor _ 0 (by norm_num) (by norm_num) (by norm_num)
  have z4 : toU16cast ((2 : ℚ) / 32767 * 10 * 10 * 10 * 10) = 0 :=
    toU16cast_of_floor _ 0 (by norm_num) (by norm_num) (by norm_num)
  have z5 : toU16cast ((2 : ℚ) / 32767 * 10 * 10 * 10 * 10 * 10) = 6 :=
    toU16cast_of_floor _ 6 (by norm_num) (by norm_num) (by norm_num)
  have s1 : niceLoop 10 0 ((2 : ℚ) / 32767) =
      niceLoop 9 1 ((2 : ℚ) / 32767 * 10) :=
    niceLoop_cont 9 0 _ (by norm_num) z0
  have s2 : niceLoop 9 1 ((2 : ℚ) / 32767 * 10) =
      niceLoop 8 2 ((2 : ℚ) / 32767 * 10 * 10) :=
    niceLoop_cont 8 1 _ (by norm_num) z1
  have s3 : niceLoop 8 2 ((2 : ℚ) / 32767 * 10 * 10) =
      niceLoop 7 3 ((2 : ℚ) / 32767 * 10 * 10 * 10) :=
    niceLoop_cont 7 2 _ (by norm_num) z2
  have s4 : niceLoop 7 3 ((2 : ℚ) / 32767 * 10 * 10 * 10) =
      niceLoop 6 4 ((2 : ℚ) / 32767 * 10 * 10 * 10 * 10) :=
    niceLoop_cont 6 3 _ (by norm_num) z3
  have s5 : niceLoop 6 4 ((2 : ℚ) / 32767 * 10 * 10 * 10 * 10) =
      niceLoop 5 5 ((2 : ℚ) / 32767 * 10 * 10 * 10 * 10 * 10) :=
    niceLoop_cont 5 4 _ (by norm_num) z4
  have s6 : niceLoop 5 5 ((2 : ℚ) / 32767 * 10 * 10 * 10 * 10 * 10) =
      some (((toU16cast ((2 : ℚ) / 32767 * 10 * 10 * 10 * 10 * 10) : ℚ) + 1) / 10 ^ 5) :=
    niceLoop_done 4 5 _ (by norm_num) (by rw [z5]; norm_num)
  rw [s1, s2, s3, s4, s5, s6, z5]
  norm_num

/-- The full operating point the generic calibration computes from the
32V/2A physical parameters: calibration value 5851, current LSB 0.07 mA. -/
theorem setCalibration_Def_32V2A_pair :
    (Adafruit_INA219.setCalibration_Def 10 zeroState idleWire
        (1/10) (32/100) 32 2).map
      (fun p => (p.1.ina219_calValue, p.1.ina219_currentLsb_mA)) =
      some (5851, 7/100) := by
  simp only [Adafruit_INA219.setCalibration_Def, niceLoop_32V2A, Option.map_some]
  norm_num
  exact toU16cast_of_floor _ 5851 (by norm_num) (by norm_num) (by norm_num)

/-- Claim C1, counterexample: calling the generic calibration with
`i_max_expected = 0` (and the 32V/2A physical parameters otherwise) does
not fail: already with fuel 1 — i.e. with the rounding loop exiting before
a single iteration — the routine completes normally, caches a calibration
value and writes it to the CALIBRATION register, then writes CONFIG.  No
configuration error is raised anywhere (the source routine is `void` with
no error channel), refuting "fails fast by raising a configuration error
and does not produce a calibration value". -/
theorem setCalibration_Def_nonpos_cex :
    (Adafruit_INA219.setCalibration_Def 1 zeroState idleWire
        (1/10) (32/100) 32 0).map (fun p => (p.1.ina219_calValue, p.2.trace)) =
      some (0, [WireOp.write 5 0, WireOp.write 0 14751]) := by
  have hloop : niceLoop 1 0 ((0 : ℚ) / 32767) = some (0 / 32767) :=
    niceLoop_nonpos 0 0 _ (by norm_num)
  have hz : toU16cast ((4096/100000 : ℚ) / (0 / 32767 * (1/10))) = 0 := by
    norm_num [toU16cast, truncZ]
  simp only [Adafruit_INA219.setCalibration_Def, hloop, Option.map_some,
    wireWriteRegister, idleWire]
  norm_num [hz, gainFor, INA219_REG_CALIBRATION, INA219_REG_CONFIG]
  decide

/-- Claim C1, amended: for every `i_max_expected ≤ 0` the guard
`while (current_lsb > 0.0)` makes the rounding loop exit before its first
iteration (fuel 1 suffices, so the loop never runs unboundedly), but the
routine raises no configuration error: it completes normally, caches
`i_max_expected / 32767 * 1000` as the current LSB, and still writes a
calibration value to CALIBRATION followed by the CONFIG write. -/
theorem setCalibration_Def_nonpos (fuel : Nat) (s : Adafruit_INA219) (w : Wire)
    (r v b i : ℚ) (hf : 1 ≤ fuel) (hi : i ≤ 0) :
    ∃ s' w', Adafruit_INA219.setCalibration_Def fuel s w r v b i = some (s', w') ∧
      s'.ina219_currentLsb_mA = i / 32767 * 1000 ∧
      ∃ c, w'.trace = w.trace ++
        [WireOp.write INA219_REG_CALIBRATION s'.ina219_calValue,
         WireOp.write INA219_REG_CONFIG c] := by
  cases fuel with
  | zero => omega
  | succ n =>
    have hq : ¬ (0 < i / 32767) := by
      have h := (div_le_div_iff_of_pos_right (show (0:ℚ) < 32767 by norm_num)).mpr hi
      simp only [zero_div] at h
      linarith
    have hloop : niceLoop (n + 1) 0 (i / 32767) = some (i / 32767) :=
      niceLoop_nonpos n 0 _ hq
    simp only [Adafruit_INA219.setCalibration_Def, hloop]
    exact ⟨_, _, rfl, rfl,
      (if 16 < b then INA219_CONFIG_BVOLTAGERANGE_32V else INA219_CONFIG_BVOLTAGERANGE_16V) |||
        gainFor v ||| INA219_CONFIG_BADCRES_12BIT ||| INA219_CONFIG_SADCRES_12BIT_1S_532US |||
        INA219_CONFIG_MODE_SANDBVOLT_CONTINUOUS,
      by simp [wireWriteRegister]⟩

/-- Claim C1 witness: the amended statement evaluated at fuel 1 and
`i_max_expected = 0`. -/
theorem setCalibration_Def_nonpos_w :
    ∃ s' w', Adafruit_INA219.setCalibration_Def 1 zeroState idleWire
        (1/10) (32/100) 32 0 = some (s', w') ∧
      s'.ina219_currentLsb_mA = 0 / 32767 * 1000 ∧
      ∃ c, w'.trace = idleWire.trace ++
        [WireOp.write INA219_REG_CALIBRATION s'.ina219_calValue,
         WireOp.write INA219_REG_CONFIG c] :=
  setCalibration_Def_nonpos 1 zeroState idleWire (1/10) (32/100) 32 0
    (by norm_num) (by norm_num)

/-- Claim C2, counterexample: the generic calibration at `r_shunt = 0.1`,
`v_shunt_max = 0.32`, `v_bus_max = 32`, `i_max_expected = 2.0` does not
reproduce the 32V/2A preset's operating point: its cached pair
(calibration value, current LSB in mA) is not `(4096, 0.1)`. -/
theorem setCalibration_Def_32V2A_cex :
    ¬ ((Adafruit_INA219.setCalibration_Def 10 zeroState idleWire
          (1/10) (32/100) 32 2).map
        (fun p => (p.1.ina219_calValue, p.1.ina219_currentLsb_mA)) =
      some (4096, 1/10)) := by
  intro h
  rw [setCalibration_Def_32V2A_pair] at h
  simp only [Option.some.injEq, Prod.mk.injEq] at h
  exact absurd h.1 (by norm_num)

/-- Claim C2, amended: at those inputs the routine caches calibration
value `5851` and current LSB `0.07` mA: the rounding loop scales
`2/32767 ≈ 0.000061` up to `6.1037`, truncates to `6`, adds `1` and
scales back, giving `0.00007` A — the "next nice decimal", not the
preset's hand-picked `0.0001` A — and
`trunc(0.04096 / (0.00007 × 0.1)) = 5851`.  (Exact rational arithmetic;
the C float computation stays ≈4·10⁻⁷ relative distance from these
values, far from any truncation boundary, so it lands on the same pair.) -/
theorem setCalibration_Def_32V2A_point :
    (Adafruit_INA219.setCalibration_Def 10 zeroState idleWire
        (1/10) (32/100) 32 2).map
      (fun p => (p.1.ina219_calValue, p.1.ina219_currentLsb_mA)) =
      some (5851, 7/100) :=
  setCalibration_Def_32V2A_pair


/-- Claim C6: after `setCalibration_32V_2A`, a raw CURRENT reading of 100
converts through `getCurrent_mA` to 10.0 mA and a raw POWER reading of 50
converts through `getPower_mW` to 100.0 mW (raw × cached LSB; both
products are exact in C floats as well: 100 × 0.1f rounds to exactly 10.0
and 50 × 2.0f is exact). -/
theorem calib32V2A_conversions (s : Adafruit_INA219) (w : Wire)
    (hcur : w.regs INA219_REG_CURRENT = 100)
    (hpow : w.regs INA219_REG_POWER = 50) :
    (Adafruit_INA219.getCurrent_mA (s.setCalibration_32V_2A w).1
        (s.setCalibration_32V_2A w).2).1 = 10 ∧
    (Adafruit_INA219.getPower_mW (s.setCalibration_32V_2A w).1
        (s.setCalibration_32V_2A w).2).1 = 100 := by
  rw [INA219_REG_CURRENT] at hcur
  rw [INA219_REG_POWER] at hpow
  constructor <;>
  · simp [Adafruit_INA219.getCurrent_mA, Adafruit_INA219.getPower_mW,
      Adafruit_INA219.getCurrent_raw, Adafruit_INA219.getPower_raw,
      Adafruit_INA219.setCalibration_32V_2A, wireWriteRegister, wireReadRegister,
      updReg, toI16, hcur, hpow, INA219_REG_CURRENT, INA219_REG_POWER,
      INA219_REG_CALIBRATION, INA219_REG_CONFIG]
    norm_num

/-- Claim C6 witness: the conversions evaluated on a concrete wire holding
CURRENT = 100 and POWER = 50. -/
theorem calib32V2A_conversions_w :
    (Adafruit_INA219.getCurrent_mA (zeroState.setCalibration_32V_2A testWire).1
        (zeroState.setCalibration_32V_2A testWire).2).1 = 10 ∧
    (Adafruit_INA219.getPower_mW (zeroState.setCalibration_32V_2A testWire).1
        (zeroState.setCalibration_32V_2A testWire).2).1 = 100 :=
  calib32V2A_conversions zeroState testWire (by decide) (by decide)

/-- Claim C7: the gain selection of `setCalibration_Def` picks the
smallest shunt range covering `v_shunt_max`, monotonically:
`v ≤ 0.04` gives gain 1 (±40 mV); `0.04 < v ≤ 0.08` gives gain 2
(±80 mV); `0.08 < v ≤ 0.16` gives gain 4 (±160 mV); `0.16 < v` gives
gain 8 (±320 mV) — a tie at a boundary resolves to the smaller range. -/
theorem gainFor_thresholds (v : ℚ) :
    (v ≤ 4/100 → gainFor v = INA219_CONFIG_GAIN_1_40MV) ∧
    (4/100 < v → v ≤ 8/100 → gainFor v = INA219_CONFIG_GAIN_2_80MV) ∧
    (8/100 < v → v ≤ 16/100 → gainFor v = INA219_CONFIG_GAIN_4_160MV) ∧
    (16/100 < v → gainFor v = INA219_CONFIG_GAIN_8_320MV) := by
  unfold gainFor
  refine ⟨fun h1 => ?_, fun h1 h2 => ?_, fun h1 h2 => ?_, fun h1 => ?_⟩ <;>
    split_ifs <;> first | rfl | (exfalso; linarith)

/-- Claim C7 witness: at the boundary `v_shunt_max = 0.08` the tie goes to
the ±80 mV range. -/
theorem gainFor_thresholds_w : gainFor (8/100) = INA219_CONFIG_GAIN_2_80MV :=
  (gainFor_thresholds (8/100)).2.1 (by norm_num) (by norm_num)

/-- Claim C8: each shunt-sampling toggle rewrites CONFIG changing only
bits of the SADC field — every bit outside `INA219_CONFIG_SADCRES_MASK`
of the 16-bit starting CONFIG value is unchanged — and each bus-sampling
toggle changes only bits of the BADC field; the two fields are disjoint,
so neither channel's toggle touches the other's bits nor the
range/gain/mode bits. -/
theorem adc_toggles_isolated (w : Wire) (i : Nat) :
    (Nat.testBit INA219_CONFIG_SADCRES_MASK i = false →
      Nat.testBit ((Adafruit_INA219.setAmpInstant w).regs INA219_REG_CONFIG) i =
        Nat.testBit (w.regs INA219_REG_CONFIG % 65536) i ∧
      Nat.testBit ((Adafruit_INA219.setAmpAverage w).regs INA219_REG_CONFIG) i =
        Nat.testBit (w.regs INA219_REG_CONFIG % 65536) i) ∧
    (Nat.testBit INA219_CONFIG_BADCRES_MASK i = false →
      Nat.testBit ((Adafruit_INA219.setVoltInstant w).regs INA219_REG_CONFIG) i =
        Nat.testBit (w.regs INA219_REG_CONFIG % 65536) i ∧
      Nat.testBit ((Adafruit_INA219.setVoltAverage w).regs INA219_REG_CONFIG) i =
        Nat.testBit (w.regs INA219_REG_CONFIG % 65536) i) ∧
    INA219_CONFIG_SADCRES_MASK &&& INA219_CONFIG_BADCRES_MASK = 0 := by
  refine ⟨fun hm => ⟨?_, ?_⟩, fun hm => ⟨?_, ?_⟩, by decide⟩ <;>
    simp only [Adafruit_INA219.setAmpInstant, Adafruit_INA219.setAmpAverage,
      Adafruit_INA219.setVoltInstant, Adafruit_INA219.setVoltAverage,
      wireWriteRegister, wireReadRegister, updReg, INA219_REG_CONFIG,
      if_pos] <;>
    exact maskSet_step_preserves _ _ _ i (by decide) hm

/-- Claim C8 witness: starting from CONFIG = 0x399F (the 32V/2A
configuration), `setAmpInstant` leaves bit 13 (the 32V bus-range bit,
outside the SADC field) set. -/
theorem adc_toggles_isolated_w :
    Nat.testBit ((Adafruit_INA219.setAmpInstant ⟨fun _ => 14751, []⟩).regs
      INA219_REG_CONFIG) 13 = true := by
  have h := ((adc_toggles_isolated ⟨fun _ => 14751, []⟩ 13).1 (by decide)).1
  rw [h]
  decide

/-- Claim C9 witness: a BUSVOLTAGE register holding `1000 * 8 = 8000`
decodes to `1000 * 4 = 4000`. -/
theorem getBusVoltage_raw_decodes_w :
    (Adafruit_INA219.getBusVoltage_raw ⟨fun _ => 8000, []⟩).1 = (1000 * 4 : Int) ∧
    (1000 * 4 : Int) ≤ 32764 :=
  getBusVoltage_raw_decodes 1000 ⟨fun _ => 8000, []⟩ (by norm_num) rfl
